import Mathlib

/-!
Shallow embedding of askbot/tasks.py (askbot-devel).

The module defines three Celery work units:

* record_post_update_celery_task / record_post_update — reacts to a post
  create or edit event: creates an Activity record, attaches recipients,
  creates Mention records, refreshes per-user response counters, and
  dispatches instant email notifications (with a spam throttle).
* record_question_visit — view counter, per-user visit record, badge signal.
* notify_author_of_published_revision_celery_task — sends the
  post-published email with two minted reply addresses.

Database writes and collaborator calls are modelled as explicit data in
the returned result structures; exceptions are modelled with Except and a
TaskOutcome type that distinguishes whether a traceback was printed to
stderr before re-raising.
-/

namespace Askbot

/-- A user row, with the attributes consumed by tasks.py:
is_administrator and is_moderator checks and the reputation score. -/
structure User where
  id : Nat
  is_administrator : Bool
  is_moderator : Bool
  reputation : Int
  deriving DecidableEq, Repr

/-- A post object as consumed by record_post_update.  The collaborator
methods called on the post (get_updated_activity_data,
get_response_receivers, get_instant_notification_subscribers) are owned
by other modules, so they are modelled as function-valued fields. -/
structure Post where
  post_id : Nat
  is_comment : Bool
  text : String
  get_origin_post : Nat
  get_updated_activity_data : Bool → Nat × Nat
  get_response_receivers : List User → List User
  get_instant_notification_subscribers :
    List User → List User → List User → List User

/-- The Activity row created and saved by record_post_update, together
with the recipients attached via update_activity.add_recipients. -/
structure Activity where
  user : User
  active_at : Nat
  content_object : Nat
  activity_type : Nat
  question : Nat
  summary : Option String
  recipients : List User
  deriving DecidableEq, Repr

/-- A mention record as created by Activity.objects.create_new_mention. -/
structure Mention where
  mentioned_whom : User
  mentioned_in : Nat
  mentioned_by : User
  mentioned_at : Nat
  deriving DecidableEq, Repr

/-- The askbot livesettings consumed by tasks.py. -/
structure Settings where
  ENABLE_EMAIL_ALERTS : Bool
  REPLY_BY_EMAIL : Bool
  APP_SHORT_NAME : String
  deriving DecidableEq, Repr

/-- The observable effects of one successful run of record_post_update:
the saved Activity (with attached recipients), the Mention records
created, the users whose update_response_counts was called (one entry
per call), and the recipient list handed to
send_instant_notifications_about_activity_in_post (none when the
function returned before dispatch). -/
structure PostUpdateResult where
  update_activity : Activity
  mentions : List Mention
  response_count_updates : List User
  notifications_sent : Option (List User)
  deriving DecidableEq, Repr

/-- Embedding of record_post_update (tasks.py lines 126-218).
An AssertionError from line 191 is modelled as Except.error. -/
def record_post_update (settings : Settings) (post : Post) (updated_by : User)
    (newly_mentioned_users : List User) (timestamp : Nat) (created : Bool)
    (diff : Option String) : Except String PostUpdateResult :=
  -- lines 147-154: activity data and summary
  let activity_type := (post.get_updated_activity_data created).1
  let summary : Option String := if post.is_comment then some post.text else diff
  -- lines 170-172: recipients, excluding the updating user per collaborator
  let recipients := post.get_response_receivers [updated_by]
  -- lines 156-164 and 174: the Activity row, saved with attached recipients
  let update_activity : Activity :=
    { user := updated_by
      active_at := timestamp
      content_object := post.post_id
      activity_type := activity_type
      question := post.get_origin_post
      summary := summary
      recipients := recipients }
  -- lines 177-189: one mention per newly mentioned user not in recipients
  let mentions : List Mention :=
    (newly_mentioned_users.filter (fun u => decide (u ∉ recipients))).map
      (fun u =>
        { mentioned_whom := u
          mentioned_in := post.post_id
          mentioned_by := updated_by
          mentioned_at := timestamp })
  -- line 191: assert(updated_by not in recipients)
  if updated_by ∈ recipients then
    Except.error "AssertionError: updated_by in recipients"
  else
    -- lines 193-194: set(recipients) | set(newly_mentioned_users)
    let response_count_updates := (recipients ++ newly_mentioned_users).dedup
    -- lines 197-198: shortcircuit when email alerts are disabled
    if settings.ENABLE_EMAIL_ALERTS = false then
      Except.ok
        { update_activity := update_activity
          mentions := mentions
          response_count_updates := response_count_updates
          notifications_sent := none }
    else
      -- lines 203-207: instant notification subscribers
      let subscribers :=
        post.get_instant_notification_subscribers recipients
          newly_mentioned_users [updated_by]
      -- lines 209-213: temporary spam protection plug
      let subscribers :=
        if created then
          if !(updated_by.is_administrator || updated_by.is_moderator) then
            if updated_by.reputation < 15 then
              subscribers.filter (fun u => u.is_administrator)
            else subscribers
          else subscribers
        else subscribers
      -- lines 214-218: dispatch
      Except.ok
        { update_activity := update_activity
          mentions := mentions
          response_count_updates := response_count_updates
          notifications_sent := some subscribers }

/-- A Django content type: the polymorphic lookup
get_object_for_this_type over the concrete post tables. -/
structure ContentType where
  get_object_for_this_type : Nat → Option Post

/-- The database state the celery task resolves ids against:
User.objects.get, ContentType.objects.get, and the backing user table
behind User.objects.filter. -/
structure Db where
  users_get : Nat → Option User
  content_types_get : Nat → Option ContentType
  users : List User

/-- Outcome of a celery task invocation.  raisedTraced models an
exception whose traceback was printed to stderr by the except block
(lines 120-124) before being re-raised; raisedUntraced models an
exception that propagated from outside the try block, with no traceback
printed. -/
inductive TaskOutcome where
  | ok (result : PostUpdateResult)
  | raisedTraced (msg : String)
  | raisedUntraced (msg : String)
  deriving DecidableEq, Repr

/-- Embedding of record_post_update_celery_task (tasks.py lines 94-124).
The id arguments whose Python default is None are Option-typed.  The
object reconstitution (lines 105-110) happens before the try block:
User.objects.get raises DoesNotExist for a missing or None id,
ContentType.objects.get likewise, get_object_for_this_type likewise, and
User.objects.filter with id__in = None raises TypeError while building
the query.  None of those exceptions reaches the except block, so they
propagate untraced. -/
def record_post_update_celery_task (db : Db) (settings : Settings)
    (post_id : Nat) (post_content_type_id : Nat)
    (newly_mentioned_user_id_list : Option (List Nat))
    (updated_by_id : Option Nat)
    (timestamp : Nat) (created : Bool) (diff : Option String) : TaskOutcome :=
  match updated_by_id.bind db.users_get with
  | none => TaskOutcome.raisedUntraced "User.DoesNotExist"
  | some updated_by =>
  match db.content_types_get post_content_type_id with
  | none => TaskOutcome.raisedUntraced "ContentType.DoesNotExist"
  | some post_content_type =>
  match post_content_type.get_object_for_this_type post_id with
  | none => TaskOutcome.raisedUntraced "Post.DoesNotExist"
  | some post =>
  match newly_mentioned_user_id_list with
  | none => TaskOutcome.raisedUntraced "TypeError: NoneType object is not iterable"
  | some id_list =>
  let newly_mentioned_users := db.users.filter (fun u => decide (u.id ∈ id_list))
  match record_post_update settings post updated_by newly_mentioned_users
      timestamp created diff with
  | Except.ok r => TaskOutcome.ok r
  | Except.error e => TaskOutcome.raisedTraced e

/-- A user as consumed by record_question_visit: the Django auth checks
is_anonymous and is_authenticated are modelled as fields. -/
structure VisitUser where
  id : Nat
  is_anonymous : Bool
  is_authenticated : Bool
  deriving DecidableEq, Repr

/-- The question post visited, with the view counter of its thread. -/
structure QuestionPost where
  post_id : Nat
  thread_view_count : Nat
  deriving DecidableEq, Repr

/-- One emission of award_badges_signal.send. -/
structure BadgeSignal where
  event : String
  actor : VisitUser
  context_object : Nat
  deriving DecidableEq, Repr

/-- The observable effects of record_question_visit: the resulting
thread view counter, the question posts recorded via
user.visit_question, and the badge signals emitted. -/
structure VisitResult where
  thread_view_count : Nat
  visited_questions : List Nat
  badge_signals : List BadgeSignal
  deriving DecidableEq, Repr

/-- Embedding of record_question_visit (tasks.py lines 221-253). -/
def record_question_visit (question_post : QuestionPost) (user : VisitUser)
    (update_view_count : Bool) : VisitResult :=
  -- lines 235-236: maybe update the view count
  let view_count :=
    if update_view_count then question_post.thread_view_count + 1
    else question_post.thread_view_count
  -- lines 238-239: anonymous users get no further bookkeeping
  if user.is_anonymous then
    { thread_view_count := view_count
      visited_questions := []
      badge_signals := [] }
  else
    { thread_view_count := view_count
      -- lines 243-245: visit_question for authenticated users
      visited_questions :=
        if user.is_authenticated then [question_post.post_id] else []
      -- lines 249-253: badge signal, unconditional past the anonymous return
      badge_signals :=
        [{ event := "view_question"
           actor := user
           context_object := question_post.post_id }] }

/-- Modelled from the spec: askbot.const is not under src.  The numeric
value of the email-update-sent activity type tag is immaterial; only its
identity is used. -/
def TYPE_ACTIVITY_EMAIL_UPDATE_SENT : Nat := 20

/-- Modelled from the spec: askbot.const is not under src.  The reply
separator template wraps a human-readable prompt line. -/
def SIMPLE_REPLY_SEPARATOR_TEMPLATE (prompt : String) : String :=
  "==== " ++ prompt ++ " -=-=="

/-- A post revision, with the attributes consumed by
notify_author_of_published_revision_celery_task. -/
structure Revision where
  revision_id : Nat
  author_email : String
  author_email_signature : String
  post_id : Nat
  post_type : String
  thread_title : String
  deriving DecidableEq, Repr

/-- The template context assembled for the
notify_author_about_approved_post template. -/
structure TemplateData where
  site_name : String
  post_id : Nat
  author_email_signature : String
  replace_content_address : String
  reply_separator_line : String
  mailto_link_subject : String
  reply_code : String
  deriving DecidableEq, Repr

/-- One call to mail.send_mail. -/
structure EmailMessage where
  subject_line : String
  body_text : String
  recipient_list : List String
  related_object : Nat
  activity_type : Nat
  reply_to : Option String
  deriving DecidableEq, Repr

/-- The observable effects of
notify_author_of_published_revision_celery_task: the reply_action tags
of the ReplyAddress tokens minted, in creation order, and the emails
sent. -/
structure NotifyResult where
  reply_addresses_created : List String
  sent_mail : List EmailMessage
  deriving DecidableEq, Repr

/-- Embedding of notify_author_of_published_revision_celery_task
(tasks.py lines 38-92).  ReplyAddress.objects.create_new and the
template engine are external collaborators, modelled as the
create_reply_address and render_template parameters. -/
def notify_author_of_published_revision_celery_task (settings : Settings)
    (create_reply_address : String → String)
    (render_template : TemplateData → String)
    (revision : Revision) : NotifyResult :=
  -- line 43: gate on the reply-by-email feature flag
  if settings.REPLY_BY_EMAIL then
    -- lines 46-57: mint the append and replace reply addresses
    let append_content_address := create_reply_address "append_content"
    let replace_content_address := create_reply_address "replace_content"
    -- lines 60-68: template context variables
    let reply_code := append_content_address ++ "," ++ replace_content_address
    let mailto_link_subject :=
      if revision.post_type = "question" then revision.thread_title
      else "An edit for my answer"
    let prompt := "To add to your post EDIT ABOVE THIS LINE"
    let reply_separator_line := SIMPLE_REPLY_SEPARATOR_TEMPLATE prompt
    let data : TemplateData :=
      { site_name := settings.APP_SHORT_NAME
        post_id := revision.post_id
        author_email_signature := revision.author_email_signature
        replace_content_address := replace_content_address
        reply_separator_line := reply_separator_line
        mailto_link_subject := mailto_link_subject
        reply_code := reply_code }
    -- lines 83-92: headers and the send_mail call
    { reply_addresses_created := ["append_content", "replace_content"]
      sent_mail :=
        [{ subject_line :=
             "Your post at " ++ settings.APP_SHORT_NAME ++ " is now published"
           body_text := render_template data
           recipient_list := [revision.author_email]
           related_object := revision.revision_id
           activity_type := TYPE_ACTIVITY_EMAIL_UPDATE_SENT
           reply_to := some append_content_address }] }
  else
    { reply_addresses_created := []
      sent_mail := [] }

/-- Inversion principle for a successful run of record_post_update: the
assertion passed and every field of the result is the value computed by
the corresponding source line. -/
theorem record_post_update_ok_inv (settings : Settings) (post : Post)
    (updated_by : User) (newly_mentioned_users : List User) (timestamp : Nat)
    (created : Bool) (diff : Option String) (r : PostUpdateResult)
    (h : record_post_update settings post updated_by newly_mentioned_users
        timestamp created diff = Except.ok r) :
    updated_by ∉ post.get_response_receivers [updated_by] ∧
    r.update_activity =
      { user := updated_by
        active_at := timestamp
        content_object := post.post_id
        activity_type := (post.get_updated_activity_data created).1
        question := post.get_origin_post
        summary := if post.is_comment then some post.text else diff
        recipients := post.get_response_receivers [updated_by] } ∧
    r.mentions =
      ((newly_mentioned_users.filter
          (fun u => decide (u ∉ post.get_response_receivers [updated_by]))).map
        (fun u =>
          { mentioned_whom := u
            mentioned_in := post.post_id
            mentioned_by := updated_by
            mentioned_at := timestamp })) ∧
    r.response_count_updates =
      (post.get_response_receivers [updated_by] ++ newly_mentioned_users).dedup ∧
    r.notifications_sent =
      (if settings.ENABLE_EMAIL_ALERTS = false then none
       else
        let subscribers :=
          post.get_instant_notification_subscribers
            (post.get_response_receivers [updated_by]) newly_mentioned_users
            [updated_by]
        some
          (if created then
            if !(updated_by.is_administrator || updated_by.is_moderator) then
              if updated_by.reputation < 15 then
                subscribers.filter (fun u => u.is_administrator)
              else subscribers
            else subscribers
          else subscribers)) := by
  unfold record_post_update at h
  by_cases hmem : updated_by ∈ post.get_response_receivers [updated_by]
  · simp only [hmem, if_true] at h
    exact absurd h (by simp)
  · refine ⟨hmem, ?_⟩
    simp only [hmem, if_false] at h
    by_cases halerts : settings.ENABLE_EMAIL_ALERTS = false
    · simp only [halerts, if_true] at h
      obtain rfl := (Except.ok.injEq _ _).mp h.symm
      simp [halerts]
    · simp only [halerts, if_false] at h
      obtain rfl := (Except.ok.injEq _ _).mp h.symm
      simp [halerts]

/-- The assertion on line 191 fires whenever the recipient computation
returns the updating user: the run raises instead of completing. -/
theorem record_post_update_assert_fires (settings : Settings) (post : Post)
    (updated_by : User) (newly_mentioned_users : List User) (timestamp : Nat)
    (created : Bool) (diff : Option String)
    (hmem : updated_by ∈ post.get_response_receivers [updated_by]) :
    record_post_update settings post updated_by newly_mentioned_users
        timestamp created diff
      = Except.error "AssertionError: updated_by in recipients" := by
  unfold record_post_update
  simp [hmem]

/-! Concrete fixtures used by witnesses and counterexamples. -/

/-- Settings with email alerts on and reply by email on. -/
def spamSettings : Settings :=
  { ENABLE_EMAIL_ALERTS := true, REPLY_BY_EMAIL := true, APP_SHORT_NAME := "forum" }

/-- Settings with email alerts off. -/
def quietSettings : Settings :=
  { ENABLE_EMAIL_ALERTS := false, REPLY_BY_EMAIL := false, APP_SHORT_NAME := "forum" }

/-- An ordinary user with high reputation. -/
def alice : User :=
  { id := 1, is_administrator := false, is_moderator := false, reputation := 100 }

/-- An ordinary user. -/
def bob : User :=
  { id := 2, is_administrator := false, is_moderator := false, reputation := 50 }

/-- An administrator. -/
def adminCarol : User :=
  { id := 3, is_administrator := true, is_moderator := false, reputation := 1000 }

/-- An ordinary user whose reputation is below the throttle threshold. -/
def lowRepUser : User :=
  { id := 4, is_administrator := false, is_moderator := false, reputation := 5 }

/-- A non-comment post whose collaborators report bob as the response
receiver and adminCarol and bob as instant notification subscribers. -/
def demoPost : Post :=
  { post_id := 10
    is_comment := false
    text := "body"
    get_origin_post := 10
    get_updated_activity_data := fun _ => (7, 0)
    get_response_receivers := fun _ => [bob]
    get_instant_notification_subscribers := fun _ _ _ => [adminCarol, bob] }

/-- A comment post variant of demoPost. -/
def commentPost : Post :=
  { demoPost with is_comment := true, text := "a comment" }

/-- A post whose response-receiver collaborator wrongly returns the
updating user alice, so the assertion on line 191 fires. -/
def assertingPost : Post :=
  { demoPost with get_response_receivers := fun _ => [alice, bob] }

/-- Content type resolving post id 10 to demoPost. -/
def demoContentType : ContentType :=
  { get_object_for_this_type := fun i => if i = 10 then some demoPost else none }

/-- Content type resolving post id 10 to assertingPost. -/
def assertingContentType : ContentType :=
  { get_object_for_this_type := fun i => if i = 10 then some assertingPost else none }

/-- A database with no rows at all. -/
def emptyDb : Db :=
  { users_get := fun _ => none
    content_types_get := fun _ => none
    users := [] }

/-- A database resolving users 1, 2, 3 and content types 1 and 2. -/
def demoDb : Db :=
  { users_get := fun i =>
      if i = 1 then some alice
      else if i = 2 then some bob
      else if i = 3 then some adminCarol
      else none
    content_types_get := fun i =>
      if i = 1 then some demoContentType
      else if i = 2 then some assertingContentType
      else none
    users := [alice, bob, adminCarol] }

/-- Result of record_post_update at spamSettings, demoPost, updater
alice, no newly mentioned users, timestamp 5, created false, no diff. -/
def demoResultNoMention : PostUpdateResult :=
  { update_activity :=
      { user := alice, active_at := 5, content_object := 10, activity_type := 7,
        question := 10, summary := none, recipients := [bob] }
    mentions := []
    response_count_updates := [bob]
    notifications_sent := some [adminCarol, bob] }

/-- Result of record_post_update at spamSettings, demoPost, updater
alice, newly mentioned users [alice], timestamp 5, created false, no
diff: a Mention record is created for alice herself. -/
def selfMentionResult : PostUpdateResult :=
  { update_activity :=
      { user := alice, active_at := 5, content_object := 10, activity_type := 7,
        question := 10, summary := none, recipients := [bob] }
    mentions :=
      [{ mentioned_whom := alice, mentioned_in := 10,
         mentioned_by := alice, mentioned_at := 5 }]
    response_count_updates := [bob, alice]
    notifications_sent := some [adminCarol, bob] }

/-- Result of record_post_update at spamSettings, demoPost, updater
lowRepUser, created true: the subscriber list is throttled down to
administrators. -/
def throttledResult : PostUpdateResult :=
  { update_activity :=
      { user := lowRepUser, active_at := 5, content_object := 10,
        activity_type := 7, question := 10, summary := none, recipients := [bob] }
    mentions := []
    response_count_updates := [bob]
    notifications_sent := some [adminCarol] }

/-- Result of record_post_update at spamSettings, commentPost, updater
alice, with a diff supplied: the summary is the comment text. -/
def commentResult : PostUpdateResult :=
  { update_activity :=
      { user := alice, active_at := 5, content_object := 10, activity_type := 7,
        question := 10, summary := some "a comment", recipients := [bob] }
    mentions := []
    response_count_updates := [bob]
    notifications_sent := some [adminCarol, bob] }

/-! Claims. -/

/-- Claim C1, amended.  For every successfully processed post-update
event the updating user is absent from the computed recipient set
(enforced by the assertion on line 191, which turns the run into an
error whenever the recipient collaborator includes the actor), and,
provided the updating user is not among the newly mentioned users, no
Mention record is created for the updating user.  The original claim,
which also excluded the updating user from the mention records without
that proviso, is refuted by C1_self_mention_counterexample. -/
theorem C1_updating_user_not_self_notified (settings : Settings) (post : Post)
    (updated_by : User) (newly_mentioned_users : List User) (timestamp : Nat)
    (created : Bool) (diff : Option String) :
    (∀ r, record_post_update settings post updated_by newly_mentioned_users
        timestamp created diff = Except.ok r →
      updated_by ∉ r.update_activity.recipients ∧
      (updated_by ∉ newly_mentioned_users →
        ∀ m ∈ r.mentions, m.mentioned_whom ≠ updated_by)) ∧
    (updated_by ∈ post.get_response_receivers [updated_by] →
      record_post_update settings post updated_by newly_mentioned_users
          timestamp created diff
        = Except.error "AssertionError: updated_by in recipients") := by
  constructor
  · intro r h
    obtain ⟨hmem, hact, hment, -, -⟩ :=
      record_post_update_ok_inv _ _ _ _ _ _ _ _ h
    constructor
    · rw [hact]; exact hmem
    · intro hself m hm
      rw [hment] at hm
      obtain ⟨u, hu, rfl⟩ := List.mem_map.mp hm
      obtain ⟨hun, -⟩ := List.mem_filter.mp hu
      simp only
      intro heq
      exact hself (heq ▸ hun)
  · exact record_post_update_assert_fires _ _ _ _ _ _ _

/-- Witness for C1_updating_user_not_self_notified at a concrete
processed event. -/
theorem C1_updating_user_not_self_notified_witness :
    alice ∉ demoResultNoMention.update_activity.recipients ∧
    (alice ∉ ([] : List User) →
      ∀ m ∈ demoResultNoMention.mentions, m.mentioned_whom ≠ alice) :=
  (C1_updating_user_not_self_notified spamSettings demoPost alice [] 5 false
      none).1 demoResultNoMention rfl

/-- Claim C1, counterexample to the original statement: a processed
event (the run completes, so the assertion passed) in which the
updating user alice mentioned herself and a Mention record is created
for her. -/
theorem C1_self_mention_counterexample :
    record_post_update spamSettings demoPost alice [alice] 5 false none
      = Except.ok selfMentionResult ∧
    ∃ m ∈ selfMentionResult.mentions, m.mentioned_whom = alice :=
  ⟨rfl, ⟨{ mentioned_whom := alice, mentioned_in := 10,
           mentioned_by := alice, mentioned_at := 5 },
    by simp [selfMentionResult], rfl⟩⟩

/-- Claim C2.  With email alerts enabled, the instant-notification
subscriber list is filtered down to administrators exactly when the
post was just created, the updating user is neither an administrator
nor a moderator, and the reputation is strictly below 15; when created
is false, or the user is privileged, or the reputation is at least 15,
the list is passed to dispatch unfiltered. -/
theorem C2_spam_throttle (settings : Settings) (post : Post)
    (updated_by : User) (newly_mentioned_users : List User) (timestamp : Nat)
    (created : Bool) (diff : Option String) (r : PostUpdateResult)
    (halerts : settings.ENABLE_EMAIL_ALERTS = true)
    (h : record_post_update settings post updated_by newly_mentioned_users
        timestamp created diff = Except.ok r) :
    (created = true → updated_by.is_administrator = false →
      updated_by.is_moderator = false → updated_by.reputation < 15 →
      r.notifications_sent = some
        ((post.get_instant_notification_subscribers
            (post.get_response_receivers [updated_by]) newly_mentioned_users
            [updated_by]).filter (fun u => u.is_administrator))) ∧
    (created = false →
      r.notifications_sent = some
        (post.get_instant_notification_subscribers
          (post.get_response_receivers [updated_by]) newly_mentioned_users
          [updated_by])) ∧
    (updated_by.is_administrator = true ∨ updated_by.is_moderator = true ∨
        (15 : Int) ≤ updated_by.reputation →
      r.notifications_sent = some
        (post.get_instant_notification_subscribers
          (post.get_response_receivers [updated_by]) newly_mentioned_users
          [updated_by])) := by
  obtain ⟨-, -, -, -, hnotif⟩ := record_post_update_ok_inv _ _ _ _ _ _ _ _ h
  rw [if_neg (by simp [halerts])] at hnotif
  refine ⟨?_, ?_, ?_⟩
  · intro hc ha hm hrep
    subst hc
    rw [hnotif]
    simp [ha, hm, hrep]
  · intro hc
    subst hc
    rw [hnotif]
    simp
  · intro hpriv
    rw [hnotif]
    rcases hpriv with ha | hm | hrep
    · cases created <;> simp [ha]
    · cases created <;> simp [hm]
    · cases created <;> simp [not_lt.mpr hrep]

/-- Witness for C2_spam_throttle: a low-reputation user creating a
post has the subscriber list throttled to administrators. -/
theorem C2_spam_throttle_witness :
    throttledResult.notifications_sent = some
      ((demoPost.get_instant_notification_subscribers
          (demoPost.get_response_receivers [lowRepUser]) []
          [lowRepUser]).filter (fun u => u.is_administrator)) :=
  (C2_spam_throttle spamSettings demoPost lowRepUser [] 5 true none
      throttledResult rfl rfl).1 rfl rfl rfl (by decide)

/-- Claim C3.  In a processed update, a Mention record exists exactly
for the users that are newly mentioned and not in the computed
recipient set, and every Mention record points at the updated post, the
updating user and the event timestamp. -/
theorem C3_mentions_exactly (settings : Settings) (post : Post)
    (updated_by : User) (newly_mentioned_users : List User) (timestamp : Nat)
    (created : Bool) (diff : Option String) (r : PostUpdateResult)
    (h : record_post_update settings post updated_by newly_mentioned_users
        timestamp created diff = Except.ok r) :
    (∀ u : User, (∃ m ∈ r.mentions, m.mentioned_whom = u) ↔
        u ∈ newly_mentioned_users ∧ u ∉ r.update_activity.recipients) ∧
    (∀ m ∈ r.mentions, m.mentioned_in = post.post_id ∧
        m.mentioned_by = updated_by ∧ m.mentioned_at = timestamp) := by
  obtain ⟨-, hact, hment, -, -⟩ := record_post_update_ok_inv _ _ _ _ _ _ _ _ h
  constructor
  · intro u
    rw [hment, hact]
    simp only [List.mem_map, List.mem_filter, decide_eq_true_eq]
    constructor
    · rintro ⟨m, ⟨v, ⟨hvn, hvr⟩, rfl⟩, hw⟩
      simp only at hw
      subst hw
      exact ⟨hvn, hvr⟩
    · rintro ⟨hun, hur⟩
      exact ⟨_, ⟨u, ⟨hun, hur⟩, rfl⟩, rfl⟩
  · intro m hm
    rw [hment] at hm
    obtain ⟨v, -, rfl⟩ := List.mem_map.mp hm
    exact ⟨rfl, rfl, rfl⟩

/-- Witness for C3_mentions_exactly at a concrete processed event. -/
theorem C3_mentions_exactly_witness :
    (∃ m ∈ selfMentionResult.mentions, m.mentioned_whom = alice) ↔
      alice ∈ [alice] ∧ alice ∉ selfMentionResult.update_activity.recipients :=
  (C3_mentions_exactly spamSettings demoPost alice [alice] 5 false none
      selfMentionResult rfl).1 alice

/-- Claim C4.  With email alerts disabled, the run is independent of
the instant-notification subscriber collaborator (no subscriber
computation is observable), no dispatch happens, and the Activity
record, Mention records and counter refreshes are the same as in the
run with alerts enabled. -/
theorem C4_alerts_disabled_no_dispatch (settings : Settings) (post : Post)
    (updated_by : User) (newly_mentioned_users : List User) (timestamp : Nat)
    (created : Bool) (diff : Option String)
    (hoff : settings.ENABLE_EMAIL_ALERTS = false) :
    (∀ f, record_post_update settings
        { post with get_instant_notification_subscribers := f }
        updated_by newly_mentioned_users timestamp created diff
      = record_post_update settings post updated_by newly_mentioned_users
          timestamp created diff) ∧
    (∀ r, record_post_update settings post updated_by newly_mentioned_users
        timestamp created diff = Except.ok r →
      r.notifications_sent = none ∧
      ∀ r', record_post_update { settings with ENABLE_EMAIL_ALERTS := true }
          post updated_by newly_mentioned_users timestamp created diff
        = Except.ok r' →
        r.update_activity = r'.update_activity ∧
        r.mentions = r'.mentions ∧
        r.response_count_updates = r'.response_count_updates) := by
  constructor
  · intro f
    unfold record_post_update
    simp [hoff]
  · intro r h
    obtain ⟨-, hact, hment, hrcu, hnotif⟩ :=
      record_post_update_ok_inv _ _ _ _ _ _ _ _ h
    refine ⟨by rw [hnotif, if_pos hoff], ?_⟩
    intro r' h'
    obtain ⟨-, hact', hment', hrcu', -⟩ :=
      record_post_update_ok_inv _ _ _ _ _ _ _ _ h'
    exact ⟨by rw [hact, hact'], by rw [hment, hment'], by rw [hrcu, hrcu']⟩

/-- Witness for C4_alerts_disabled_no_dispatch: swapping the subscriber
collaborator does not change the run when alerts are off. -/
theorem C4_alerts_disabled_no_dispatch_witness :
    record_post_update quietSettings
        { demoPost with get_instant_notification_subscribers := fun _ _ _ => [] }
        alice [] 5 false none
      = record_post_update quietSettings demoPost alice [] 5 false none :=
  (C4_alerts_disabled_no_dispatch quietSettings demoPost alice [] 5 false none
      rfl).1 (fun _ _ _ => [])

/-- Claim C5.  In a processed update the Activity summary is the full
post text when the post is a comment, whatever diff was supplied, and
is exactly the supplied diff when the post is not a comment. -/
theorem C5_summary_choice (settings : Settings) (post : Post)
    (updated_by : User) (newly_mentioned_users : List User) (timestamp : Nat)
    (created : Bool) (diff : Option String) (r : PostUpdateResult)
    (h : record_post_update settings post updated_by newly_mentioned_users
        timestamp created diff = Except.ok r) :
    (post.is_comment = true → r.update_activity.summary = some post.text) ∧
    (post.is_comment = false → r.update_activity.summary = diff) := by
  obtain ⟨-, hact, -, -, -⟩ := record_post_update_ok_inv _ _ _ _ _ _ _ _ h
  rw [hact]
  constructor <;> intro hc <;> simp [hc]

/-- Witness for C5_summary_choice: a comment update with a diff
supplied stores the comment text, not the diff. -/
theorem C5_summary_choice_witness :
    commentResult.update_activity.summary = some commentPost.text :=
  (C5_summary_choice spamSettings commentPost alice [] 5 false
      (some "ignored diff") commentResult rfl).1 rfl

/-- Claim C6.  In a processed update the response-counter refresh list
has no duplicates, contains exactly the users in the union of the
recipient set and the newly mentioned users, and counts each such user
exactly once even when a user appears in both collections. -/
theorem C6_counter_refresh_once (settings : Settings) (post : Post)
    (updated_by : User) (newly_mentioned_users : List User) (timestamp : Nat)
    (created : Bool) (diff : Option String) (r : PostUpdateResult)
    (h : record_post_update settings post updated_by newly_mentioned_users
        timestamp created diff = Except.ok r) :
    r.response_count_updates.Nodup ∧
    (∀ u : User, u ∈ r.response_count_updates ↔
        u ∈ r.update_activity.recipients ∨ u ∈ newly_mentioned_users) ∧
    (∀ u : User, u ∈ r.update_activity.recipients ∨ u ∈ newly_mentioned_users →
        r.response_count_updates.count u = 1) := by
  obtain ⟨-, hact, -, hrcu, -⟩ := record_post_update_ok_inv _ _ _ _ _ _ _ _ h
  rw [hrcu, hact]
  refine ⟨List.nodup_dedup _, ?_, ?_⟩
  · intro u
    simp [List.mem_dedup, List.mem_append]
  · intro u hu
    refine List.count_eq_one_of_mem (List.nodup_dedup _) ?_
    rw [List.mem_dedup, List.mem_append]
    simpa using hu

/-- Witness for C6_counter_refresh_once: alice, both mentioned and a
non-recipient, appears exactly once in the refresh list. -/
theorem C6_counter_refresh_once_witness :
    selfMentionResult.response_count_updates.count alice = 1 :=
  (C6_counter_refresh_once spamSettings demoPost alice [alice] 5 false none
      selfMentionResult rfl).2.2 alice (Or.inr (by simp))

/-- Claim C7, amended.  In record_post_update_celery_task only the
exceptions raised by the inner record_post_update call, which sits
inside the try block, are printed as a traceback to stderr and then
re-raised unchanged; failures to resolve updated_by_id, the content
type or the post id happen on lines 105-110 before the try block and
propagate without any trace being written.  The original claim, which
said every exception including resolution failures is traced, is
refuted by C7_untraced_lookup_counterexample. -/
theorem C7_trace_only_inside_try (db : Db) (settings : Settings)
    (post_id : Nat) (post_content_type_id : Nat)
    (newly_mentioned_user_id_list : Option (List Nat))
    (updated_by_id : Option Nat) (timestamp : Nat) (created : Bool)
    (diff : Option String) :
    (updated_by_id.bind db.users_get = none →
      record_post_update_celery_task db settings post_id post_content_type_id
          newly_mentioned_user_id_list updated_by_id timestamp created diff
        = TaskOutcome.raisedUntraced "User.DoesNotExist") ∧
    (∀ updated_by, updated_by_id.bind db.users_get = some updated_by →
      db.content_types_get post_content_type_id = none →
      record_post_update_celery_task db settings post_id post_content_type_id
          newly_mentioned_user_id_list updated_by_id timestamp created diff
        = TaskOutcome.raisedUntraced "ContentType.DoesNotExist") ∧
    (∀ updated_by ct, updated_by_id.bind db.users_get = some updated_by →
      db.content_types_get post_content_type_id = some ct →
      ct.get_object_for_this_type post_id = none →
      record_post_update_celery_task db settings post_id post_content_type_id
          newly_mentioned_user_id_list updated_by_id timestamp created diff
        = TaskOutcome.raisedUntraced "Post.DoesNotExist") ∧
    (∀ updated_by ct post id_list e,
      updated_by_id.bind db.users_get = some updated_by →
      db.content_types_get post_content_type_id = some ct →
      ct.get_object_for_this_type post_id = some post →
      newly_mentioned_user_id_list = some id_list →
      record_post_update settings post updated_by
          (db.users.filter (fun u => decide (u.id ∈ id_list)))
          timestamp created diff = Except.error e →
      record_post_update_celery_task db settings post_id post_content_type_id
          newly_mentioned_user_id_list updated_by_id timestamp created diff
        = TaskOutcome.raisedTraced e) := by
  refine ⟨?_, ?_, ?_, ?_⟩
  · intro h
    unfold record_post_update_celery_task
    rw [h]
  · intro ub h1 h2
    unfold record_post_update_celery_task
    rw [h1, h2]
  · intro ub ct h1 h2 h3
    unfold record_post_update_celery_task
    simp only [h1, h2, h3]
  · intro ub ct post id_list e h1 h2 h3 h4 h5
    unfold record_post_update_celery_task
    simp only [h1, h2, h3, h4, h5]

/-- Witness for C7_trace_only_inside_try: an assertion failure inside
the inner call is re-raised with its traceback printed. -/
theorem C7_trace_only_inside_try_witness :
    record_post_update_celery_task demoDb spamSettings 10 2 (some [])
        (some 1) 5 false none
      = TaskOutcome.raisedTraced "AssertionError: updated_by in recipients" :=
  (C7_trace_only_inside_try demoDb spamSettings 10 2 (some []) (some 1) 5
      false none).2.2.2 alice assertingContentType assertingPost []
    "AssertionError: updated_by in recipients" rfl rfl rfl rfl rfl

/-- Claim C7, counterexample to the original statement: a failure to
resolve updated_by_id propagates out of the task with no traceback
printed, because the resolution happens before the try block. -/
theorem C7_untraced_lookup_counterexample :
    record_post_update_celery_task emptyDb spamSettings 10 1 (some [])
        (some 99) 5 false none
      = TaskOutcome.raisedUntraced "User.DoesNotExist" ∧
    ∀ msg, record_post_update_celery_task emptyDb spamSettings 10 1 (some [])
        (some 99) 5 false none ≠ TaskOutcome.raisedTraced msg := by
  refine ⟨rfl, ?_⟩
  intro msg h
  have h0 : record_post_update_celery_task emptyDb spamSettings 10 1 (some [])
      (some 99) 5 false none
    = TaskOutcome.raisedUntraced "User.DoesNotExist" := rfl
  rw [h0] at h
  simp at h

/-- Claim C8: the code raises where the claim expects an empty default.
Invoking the task without the newly_mentioned_user_id_list argument
leaves it None, and User.objects.filter with id__in None raises a
TypeError while the query is built on lines 108-110, before the try
block, so the task does not behave as if an empty id list had been
supplied even though every id resolves. -/
theorem C8_omitted_mention_list_raises :
    record_post_update_celery_task demoDb spamSettings 10 1 none (some 1) 5
        false none
      = TaskOutcome.raisedUntraced "TypeError: NoneType object is not iterable" ∧
    record_post_update_celery_task demoDb spamSettings 10 1 (some []) (some 1)
        5 false none
      = TaskOutcome.ok demoResultNoMention :=
  ⟨rfl, rfl⟩

/-- Claim C9.  In record_question_visit the thread view counter grows
by one exactly when update_view_count is true, anonymous users cause no
per-user visit record and no badge signal, and every non-anonymous
authenticated user gets the view_question badge signal emitted exactly
once with that user as actor and the question post as context. -/
theorem C9_question_visit_effects (question_post : QuestionPost)
    (user : VisitUser) (update_view_count : Bool) :
    ((record_question_visit question_post user update_view_count).thread_view_count
        = question_post.thread_view_count
          + (if update_view_count = true then 1 else 0)) ∧
    (user.is_anonymous = true →
      (record_question_visit question_post user update_view_count).visited_questions
          = [] ∧
      (record_question_visit question_post user update_view_count).badge_signals
          = []) ∧
    (user.is_anonymous = false → user.is_authenticated = true →
      (record_question_visit question_post user update_view_count).visited_questions
          = [question_post.post_id] ∧
      (record_question_visit question_post user update_view_count).badge_signals
        = [{ event := "view_question", actor := user,
             context_object := question_post.post_id }]) := by
  unfold record_question_visit
  refine ⟨?_, ?_, ?_⟩
  · cases h : user.is_anonymous <;> cases update_view_count <;> simp [h]
  · intro ha
    simp [ha]
  · intro ha hauth
    simp [ha, hauth]

/-- Witness for C9_question_visit_effects at a concrete authenticated
visitor. -/
theorem C9_question_visit_effects_witness :
    (record_question_visit { post_id := 10, thread_view_count := 3 }
        { id := 7, is_anonymous := false, is_authenticated := true }
        true).visited_questions = [10] ∧
    (record_question_visit { post_id := 10, thread_view_count := 3 }
        { id := 7, is_anonymous := false, is_authenticated := true }
        true).badge_signals
      = [{ event := "view_question"
           actor := { id := 7, is_anonymous := false, is_authenticated := true }
           context_object := 10 }] :=
  (C9_question_visit_effects { post_id := 10, thread_view_count := 3 }
      { id := 7, is_anonymous := false, is_authenticated := true } true).2.2
    rfl rfl

/-- Claim C10.  The published-revision notification does nothing at all
when the reply-by-email flag is off, and with the flag on it sends
exactly one email whose recipient list is exactly the revision author
address, whose Reply-To is the append-content reply address, related to
the revision and classified under the email-update-sent activity
type. -/
theorem C10_notify_author_one_email (settings : Settings)
    (create_reply_address : String → String)
    (render_template : TemplateData → String) (revision : Revision) :
    (settings.REPLY_BY_EMAIL = false →
      notify_author_of_published_revision_celery_task settings
          create_reply_address render_template revision
        = { reply_addresses_created := [], sent_mail := [] }) ∧
    (settings.REPLY_BY_EMAIL = true →
      ∃ msg, (notify_author_of_published_revision_celery_task settings
          create_reply_address render_template revision).sent_mail = [msg] ∧
        msg.recipient_list = [revision.author_email] ∧
        msg.reply_to = some (create_reply_address "append_content") ∧
        msg.related_object = revision.revision_id ∧
        msg.activity_type = TYPE_ACTIVITY_EMAIL_UPDATE_SENT) := by
  unfold notify_author_of_published_revision_celery_task
  constructor
  · intro h
    simp [h]
  · intro h
    rw [if_pos h]
    exact ⟨_, rfl, rfl, rfl, rfl, rfl⟩

/-- Witness for C10_notify_author_one_email at concrete collaborators
and revision. -/
theorem C10_notify_author_one_email_witness :
    ∃ msg, (notify_author_of_published_revision_celery_task spamSettings
        (fun action => action ++ "@reply.example.com") (fun _ => "body")
        { revision_id := 40, author_email := "author@example.com",
          author_email_signature := "sig", post_id := 10,
          post_type := "question", thread_title := "How" }).sent_mail = [msg] ∧
      msg.recipient_list = ["author@example.com"] ∧
      msg.reply_to
        = some ((fun action => action ++ "@reply.example.com") "append_content") ∧
      msg.related_object = 40 ∧
      msg.activity_type = TYPE_ACTIVITY_EMAIL_UPDATE_SENT :=
  (C10_notify_author_one_email spamSettings
      (fun action => action ++ "@reply.example.com") (fun _ => "body")
      { revision_id := 40, author_email := "author@example.com",
        author_email_signature := "sig", post_id := 10,
        post_type := "question", thread_title := "How" }).2 rfl

end Askbot
